import Mathlib

/-!
Verification development for the pyHex repository (hexparser).

This file gives a shallow embedding, in Lean 4, of the pure computational
core of the repository's Intel-HEX parser and decoder
(`hexparser/utils/hex_client.py`), the characteristic-number normalizers of
both the HEX lookup path and the A2L import path
(`hexparser/utils/a2l_importer.py`), and the spreadsheet row-to-period rule
(`hexparser/utils/excel_to_cfg_converter.py`), together with theorems that
settle the specification claims about those functions.

Python machine values are modelled as `Nat`/`Int`; byte strings as
`List Nat` (each entry < 256 in practice); fallible code returns `Except`
or `Option`; IEEE-754 float decoding is modelled exactly over `ℚ`.
-/

/-- Decidable equality on `Except`, so that concrete runs of the fallible
embedded functions can be checked by `decide`. -/
instance {ε α : Type} [DecidableEq ε] [DecidableEq α] :
    DecidableEq (Except ε α) := fun x y =>
  match x, y with
  | .ok a, .ok b =>
    if h : a = b then .isTrue (by rw [h])
    else .isFalse (fun hh => h (Except.ok.inj hh))
  | .error a, .error b =>
    if h : a = b then .isTrue (by rw [h])
    else .isFalse (fun hh => h (Except.error.inj hh))
  | .ok _, .error _ => .isFalse (fun hh => Except.noConfusion hh)
  | .error _, .ok _ => .isFalse (fun hh => Except.noConfusion hh)

namespace PyHex

/-! ## Errors raised by the Intel-HEX parser (`HexParseError` / `KeyError`
    / `ValueError` distinctions in `hex_client.py`). -/

/-- Parse-abort conditions of `IntelHexFile._load` (hex_client.py 116-164).
`line` is the 1-based source line number carried in the Python message. -/
inductive HexError where
  /-- line does not start with `:` (hex_client.py 123-124) -/
  | notHexRecord (line : Nat)
  /-- payload shorter than 10 chars or of odd length (hex_client.py 127-128) -/
  | badLength (line : Nat)
  /-- a field is not valid hexadecimal (Python `int(_,16)` / `bytes.fromhex` raise) -/
  | badHexDigit (line : Nat)
  /-- data length differs from the declared byte count (hex_client.py 137-138) -/
  | lengthMismatch (line : Nat)
  /-- type-0x04 record whose byte count is not 2 (hex_client.py 141-142) -/
  | badExtAddr (line : Nat)
deriving DecidableEq, Repr

/-- Failure modes of `IntelHexFile.fetch_bytes` (hex_client.py 169-205):
`ValueError` for a non-positive size, `KeyError` for an uncovered range. -/
inductive FetchError where
  /-- `size` must be > 0 (hex_client.py 171-172) -/
  | sizeNotPositive
  /-- requested range not contiguously covered (hex_client.py 202-203) -/
  | notFound (address size : Nat)
deriving DecidableEq, Repr

/-! ## String primitives (Python `str.strip` / `str.upper`), kept
    structurally recursive so that concrete runs reduce inside the kernel -/

/-- The ASCII whitespace characters Python `str.strip` removes. -/
def isSpaceChar (c : Char) : Bool :=
  c = ' ' ∨ c = '\t' ∨ c = '\n' ∨ c = '\r' ∨
    c = Char.ofNat 0x0b ∨ c = Char.ofNat 0x0c

/-- Strip leading and trailing whitespace from a character list. -/
def stripChars (cs : List Char) : List Char :=
  ((cs.dropWhile isSpaceChar).reverse.dropWhile isSpaceChar).reverse

/-- Python `str.strip()` (ASCII whitespace, which is all the inputs here
contain). -/
def pyStrip (s : String) : String :=
  ⟨stripChars s.toList⟩

/-- Python `str.upper()` (ASCII case mapping, which is all the inputs here
contain). -/
def pyUpper (s : String) : String :=
  ⟨s.toList.map Char.toUpper⟩

/-! ## Hex-digit and byte-string primitives -/

/-- Value of one hexadecimal digit, as accepted by Python `int(s, 16)`. -/
def hexDigitVal (c : Char) : Option Nat :=
  if '0' ≤ c ∧ c ≤ '9' then some (c.toNat - '0'.toNat)
  else if 'a' ≤ c ∧ c ≤ 'f' then some (c.toNat - 'a'.toNat + 10)
  else if 'A' ≤ c ∧ c ≤ 'F' then some (c.toNat - 'A'.toNat + 10)
  else none

/-- Python `int(s, 16)` on a non-empty string of hex digits (the parser only
calls it on fixed-width non-empty slices); `none` models the `ValueError`
raised on a non-digit or empty input. -/
def parseHexNat (cs : List Char) : Option Nat :=
  match cs with
  | [] => none
  | _ =>
    cs.foldl
      (fun acc c =>
        match acc, hexDigitVal c with
        | some a, some d => some (a * 16 + d)
        | _, _ => none)
      (some 0)

/-- Python `bytes.fromhex` on an even-length string: consecutive digit pairs
become bytes; `none` models the raised `ValueError` on a bad digit. -/
def parseHexBytes (cs : List Char) : Option (List Nat) :=
  match cs with
  | [] => some []
  | hi :: lo :: rest =>
    match hexDigitVal hi, hexDigitVal lo, parseHexBytes rest with
    | some h, some l, some bs => some ((h * 16 + l) :: bs)
    | _, _, _ => none
  | [_] => none

/-- Python `int.from_bytes(data, "big")`. -/
def bytesToNatBE (bs : List Nat) : Nat :=
  bs.foldl (fun acc b => acc * 256 + b) 0

/-- Little-endian byte-list to natural number (the `<`-prefixed
`struct` formats in `hex_client.py` are all little-endian). -/
def bytesToNatLE (bs : List Nat) : Nat :=
  bs.foldr (fun b acc => b + 256 * acc) 0

/-- Uppercase hex digits, as produced by Python `f"{n:X}"`. -/
def hexDigitChar (n : Nat) : Char :=
  if n < 10 then Char.ofNat ('0'.toNat + n)
  else Char.ofNat ('A'.toNat + (n - 10))

/-- Digit-accumulation loop for `natToHexUpper`; the fuel only bounds the
digit count (`n` itself is always enough) and keeps the recursion
structural. -/
def natToHexUpperAux : Nat → Nat → List Char → List Char
  | 0, n, acc => hexDigitChar (n % 16) :: acc
  | fuel + 1, n, acc =>
    let d := hexDigitChar (n % 16)
    let q := n / 16
    if q = 0 then d :: acc else natToHexUpperAux fuel q (d :: acc)

/-- Python `f"{n:X}"`: uppercase hexadecimal rendering of a natural number. -/
def natToHexUpper (n : Nat) : String :=
  ⟨natToHexUpperAux n n []⟩

/-! ## Intel-HEX records and loading (`IntelHexFile`, hex_client.py 90-164) -/

/-- One parsed Intel-HEX record (`HexRecord` dataclass, hex_client.py 90-102). -/
structure HexRecord where
  line_no : Nat
  byte_count : Nat
  offset_addr : Nat
  record_type : Nat
  data : List Nat
  checksum : Nat
  base_address : Nat
deriving DecidableEq, Repr

/-- `HexRecord.end_address` (hex_client.py 100-102). -/
def HexRecord.end_address (r : HexRecord) : Nat :=
  r.base_address + r.byte_count

/-- The state-independent classification of one raw line performed by the
`_load` loop body (hex_client.py 119-148): blank lines are skipped, malformed
lines abort with an error (whose constructor still awaits the 1-based line
number), a valid type-0x04 record yields the new upper address
(`int.from_bytes(data, "big")`), other non-data types are ignored, and a
type-0x00 record yields its parsed fields. -/
inductive LineClass where
  | blank
  | bad (mk : Nat → HexError)
  | ext (newUpper : Nat)
  | ignored
  | data (byte_count offset_addr record_type : Nat)
      (dataBytes : List Nat) (checksum : Nat)

/-- Classify one raw line exactly as the `_load` loop body does
(hex_client.py 119-148); everything here is independent of the running
upper address and of the line number. -/
def classifyLine (rawLine : String) : LineClass :=
  let line := pyStrip rawLine
  if line = "" then .blank
  else
    let cs := line.toList
    if cs.head? ≠ some ':' then .bad .notHexRecord
    else
      let payload := cs.drop 1
      if payload.length < 10 ∨ payload.length % 2 ≠ 0 then .bad .badLength
      else
        match parseHexNat (payload.take 2),
              parseHexNat ((payload.drop 2).take 4),
              parseHexNat ((payload.drop 6).take 2),
              parseHexNat (payload.drop (payload.length - 2)),
              parseHexBytes ((payload.drop 8).take (payload.length - 10)) with
        | some byte_count, some offset_addr, some record_type, some checksum,
          some data_bytes =>
          if data_bytes.length ≠ byte_count then .bad .lengthMismatch
          else if record_type = 0x04 then
            if byte_count ≠ 2 then .bad .badExtAddr
            else .ext (bytesToNatBE data_bytes)
          else if record_type ≠ 0x00 then .ignored
          else .data byte_count offset_addr record_type data_bytes checksum
        | _, _, _, _, _ => .bad .badHexDigit

/-- One iteration of the `_load` line loop (hex_client.py 119-161): given the
running extended upper address and the 1-based line index, either abort with a
parse error or return the updated upper address and the data record appended,
if any; a data record's absolute base address is
`(current_upper << 16) + offset_addr` (hex_client.py 150). -/
def loadStep (currentUpper : Nat) (idx : Nat) (rawLine : String) :
    Except HexError (Nat × Option HexRecord) :=
  match classifyLine rawLine with
  | .blank => .ok (currentUpper, none)
  | .bad mk => .error (mk idx)
  | .ext newUpper => .ok (newUpper, none)
  | .ignored => .ok (currentUpper, none)
  | .data byte_count offset_addr record_type data_bytes checksum =>
    .ok (currentUpper,
      some { line_no := idx
             byte_count := byte_count
             offset_addr := offset_addr
             record_type := record_type
             data := data_bytes
             checksum := checksum
             base_address := currentUpper * 65536 + offset_addr })

/-- Stable insertion into a list sorted ascending by `base_address`
(preserves original order among equal keys, like Python's stable sort). -/
def insertRecord (r : HexRecord) : List HexRecord → List HexRecord
  | [] => [r]
  | s :: rest =>
    if r.base_address ≤ s.base_address then r :: s :: rest
    else s :: insertRecord r rest

/-- `self._records.sort(key=lambda record: record.base_address)`
(hex_client.py 163): stable ascending sort by base address. -/
def sortRecords (l : List HexRecord) : List HexRecord :=
  l.foldr insertRecord []

/-- The `_load` line loop over the remaining lines, threading the 1-based line
index, the running upper address, and the records accumulated so far. -/
def loadLines (idx currentUpper : Nat) (acc : List HexRecord) :
    List String → Except HexError (List HexRecord)
  | [] => .ok acc
  | l :: rest =>
    match loadStep currentUpper idx l with
    | .error e => .error e
    | .ok (upper', none) => loadLines (idx + 1) upper' acc rest
    | .ok (upper', some r) => loadLines (idx + 1) upper' (acc ++ [r]) rest

/-- `IntelHexFile._load` (hex_client.py 116-164) on the file's lines: parse
every line starting at line number 1, then sort the data records ascending by
absolute base address. -/
def load (lines : List String) : Except HexError (List HexRecord) :=
  (loadLines 1 0 [] lines).map sortRecords

/-! ## Byte-range fetch (`IntelHexFile.fetch_bytes`, hex_client.py 169-205) -/

/-- Python `bisect.bisect_right` on a sorted list: the number of elements
`≤ x` (the insertion point to the right of any run of equal elements). -/
def bisectRight (starts : List Nat) (x : Nat) : Nat :=
  starts.countP (· ≤ x)

/-- The `while remaining > 0 and idx < len(records)` loop of `fetch_bytes`
(hex_client.py 182-200), with explicit fuel.  Each loop iteration either
consumes at least one byte or advances `idx`, so
`remaining + records.length + 1` fuel always suffices; running out of fuel
is reported as the same not-found error the Python loop's fall-through
produces (it never actually happens with the fuel chosen by `fetchBytes`). -/
def fetchLoop (records : List HexRecord) (address size : Nat) :
    Nat → Nat → Nat → Nat → List (List Nat) → Int →
    Except FetchError (List Nat × Int)
  | 0, _, _, remaining, chunks, firstLine =>
    if remaining > 0 then .error (.notFound address size)
    else .ok (chunks.flatten, firstLine)
  | fuel + 1, idx, cursor, remaining, chunks, firstLine =>
    if remaining > 0 ∧ idx < records.length then
      match records.get? idx with
      | none => .error (.notFound address size)
      | some record =>
        if cursor < record.base_address then
          -- `break`: fall through to the remaining-bytes check
          .error (.notFound address size)
        else if cursor ≥ record.end_address then
          fetchLoop records address size
            fuel (idx + 1) cursor remaining chunks firstLine
        else
          let offset := cursor - record.base_address
          let take := min remaining (record.byte_count - offset)
          let firstLine' := if firstLine = -1 then (record.line_no : Int) else firstLine
          let chunk := (record.data.drop offset).take take
          fetchLoop records address size
            fuel idx (cursor + take) (remaining - take)
            (chunks ++ [chunk]) firstLine'
    else if remaining > 0 then .error (.notFound address size)
    else .ok (chunks.flatten, firstLine)

/-- `IntelHexFile.fetch_bytes(address, size)` (hex_client.py 169-205) over the
sorted record list: binary-search to the rightmost record whose base address
is `≤ address`, then walk forward accumulating overlapping ranges; fails with
`notFound` when `size` bytes cannot be collected contiguously.  Returns the
collected bytes together with the first contributing record's line number
(`-1` start value as in the source). -/
def fetchBytes (records : List HexRecord) (address size : Nat) :
    Except FetchError (List Nat × Int) :=
  if size = 0 then .error .sizeNotPositive
  else
    let starts := records.map (·.base_address)
    -- `idx = max(bisect_right(starts, cursor) - 1, 0)`; Nat subtraction
    -- truncates at 0 exactly like the Python `max(_, 0)` clamp.
    let idx := bisectRight starts address - 1
    fetchLoop records address size
      (records.length + size + idx + address + 1) idx address size [] (-1)

/-! ## Record-layout decoding (`RecordLayoutDecoder`, hex_client.py 208-278) -/

/-- The Python `struct` formats appearing in `RecordLayoutDecoder._STRUCT_MAP`:
`<d` `<f` `<I` `<i` `<H` `<h` `<B` `<b`. -/
inductive StructFmt where
  | f64 | f32 | u32 | i32 | u16 | i16 | u8 | i8
deriving DecidableEq, Repr

/-- `struct.Struct(fmt).size` for the formats above. -/
def StructFmt.size : StructFmt → Nat
  | .f64 => 8
  | .f32 => 4
  | .u32 => 4
  | .i32 => 4
  | .u16 => 2
  | .i16 => 2
  | .u8 => 1
  | .i8 => 1

/-- `RecordLayoutDecoder._STRUCT_MAP` (hex_client.py 211-234) in its Python
dict insertion order. -/
def STRUCT_MAP : List (String × StructFmt) :=
  [ ("FLOAT64", .f64)
  , ("FLOAT32", .f32)
  , ("ULONG", .u32)
  , ("SLONG", .i32)
  , ("UWORD", .u16)
  , ("SWORD", .i16)
  , ("UBYTE", .u8)
  , ("SBYTE", .i8)
  , ("FLOAT32_IEEE", .f32)
  , ("FLOAT64_IEEE", .f64)
  , ("BOOLEAN", .u8)
  , ("SCALAR_BOOLEAN", .u8)
  , ("SCALAR_LONG", .i32)
  , ("LOOKUP1D_FLOAT32_IEEE", .f32)
  , ("LOOKUP1D_X_FLOAT32_IEEE", .f32)
  , ("LOOKUP2D_FLOAT32_IEEE", .f32)
  , ("LOOKUP2D_X_FLOAT32_IEEE", .f32) ]

/-- Stable insertion for a list sorted by descending key length (Python
`sorted(..., key=len, reverse=True)` is stable: equal-length keys keep
their dict insertion order). -/
def insertByLenDesc (p : String × StructFmt) :
    List (String × StructFmt) → List (String × StructFmt)
  | [] => [p]
  | q :: rest =>
    if p.1.length ≥ q.1.length then p :: q :: rest
    else q :: insertByLenDesc p rest

/-- `sorted(_STRUCT_MAP.items(), key=lambda x: len(x[0]), reverse=True)`
(hex_client.py 252-256). -/
def sortedStructMap : List (String × StructFmt) :=
  STRUCT_MAP.foldr insertByLenDesc []

/-- `needle` is a prefix of `haystack` (character lists). -/
def isPrefixL : List Char → List Char → Bool
  | [], _ => true
  | _ :: _, [] => false
  | a :: as, b :: bs => a = b && isPrefixL as bs

/-- Python substring containment `needle in haystack` (character lists). -/
def isInfixL (needle : List Char) : List Char → Bool
  | [] => needle.isEmpty
  | h :: hs => isPrefixL needle (h :: hs) || isInfixL needle hs

/-- `RecordLayoutDecoder._resolve_struct` (hex_client.py 243-260): uppercase
the layout, then try the keywords in descending length order and return the
format of the first keyword contained in the layout; an unrecognized layout
raises `KeyError` (modelled as `.error`).  The empty-layout `KeyError` of
`__init__` (hex_client.py 237-238) is folded in. -/
def resolveStruct (record_layout : String) : Except String StructFmt :=
  if record_layout = "" then .error "record_layout must not be empty"
  else
    let upper := record_layout.toList.map Char.toUpper
    let rec go : List (String × StructFmt) → Except String StructFmt
      | [] => .error ("unsupported record layout: " ++ record_layout)
      | (keyword, fmt) :: rest =>
        if isInfixL keyword.toList upper then .ok fmt else go rest
    go sortedStructMap

/-- A value produced by `struct.unpack`: a Python `int`, a finite Python
`float` represented exactly as a rational, or a non-finite float
(infinity / NaN, which has no rational value). -/
inductive DecodedVal where
  | int (i : Int)
  | rat (q : ℚ)
  | nonFinite
deriving DecidableEq, Repr

/-- Two's-complement reinterpretation of a `width`-byte unsigned value, as
performed by the signed `struct` formats. -/
def toSigned (n : Nat) (width : Nat) : Int :=
  if n < 2 ^ (8 * width - 1) then (n : Int) else (n : Int) - 2 ^ (8 * width)

/-- Exact value of an IEEE-754 binary32 bit pattern:
sign `s`, 8-bit exponent `e`, 23-bit fraction `m`;
`e = 255` is infinity/NaN, `e = 0` subnormal `± m·2⁻¹⁴⁹`,
otherwise `± (2²³+m)·2^(e-150)`. -/
def decodeFloat32Bits (bits : Nat) : DecodedVal :=
  let s : Nat := bits / 2 ^ 31
  let e : Nat := (bits / 2 ^ 23) % 2 ^ 8
  let m : Nat := bits % 2 ^ 23
  if e = 255 then .nonFinite
  else
    let sign : ℚ := if s = 1 then -1 else 1
    if e = 0 then .rat (sign * ((m : ℚ) / (2 ^ 149 : ℚ)))
    else if 150 ≤ e then
      .rat (sign * (((2 ^ 23 + m) * 2 ^ (e - 150) : Nat) : ℚ))
    else
      .rat (sign * (((2 ^ 23 + m : Nat) : ℚ) / ((2 : ℚ) ^ (150 - e))))

/-- Exact value of an IEEE-754 binary64 bit pattern:
sign `s`, 11-bit exponent `e`, 52-bit fraction `m`;
`e = 2047` is infinity/NaN, `e = 0` subnormal `± m·2⁻¹⁰⁷⁴`,
otherwise `± (2⁵²+m)·2^(e-1075)`. -/
def decodeFloat64Bits (bits : Nat) : DecodedVal :=
  let s : Nat := bits / 2 ^ 63
  let e : Nat := (bits / 2 ^ 52) % 2 ^ 11
  let m : Nat := bits % 2 ^ 52
  if e = 2047 then .nonFinite
  else
    let sign : ℚ := if s = 1 then -1 else 1
    if e = 0 then .rat (sign * ((m : ℚ) / (2 ^ 1074 : ℚ)))
    else if 1075 ≤ e then
      .rat (sign * (((2 ^ 52 + m) * 2 ^ (e - 1075) : Nat) : ℚ))
    else
      .rat (sign * (((2 ^ 52 + m : Nat) : ℚ) / ((2 : ℚ) ^ (1075 - e))))

/-- `RecordLayoutDecoder.decode` (hex_client.py 266-269): the input length
must equal the element size; decode the little-endian bytes per the format. -/
def decode (fmt : StructFmt) (data : List Nat) : Except String DecodedVal :=
  if data.length ≠ fmt.size then .error "byte-length mismatch"
  else
    let n := bytesToNatLE data
    match fmt with
    | .u8 | .u16 | .u32 => .ok (.int n)
    | .i8 => .ok (.int (toSigned n 1))
    | .i16 => .ok (.int (toSigned n 2))
    | .i32 => .ok (.int (toSigned n 4))
    | .f32 => .ok (decodeFloat32Bits n)
    | .f64 => .ok (decodeFloat64Bits n)

/-- `RecordLayoutDecoder.decode_many` (hex_client.py 271-278): the input must
hold exactly `count` elements; decode each `element_size`-byte slice. -/
def decodeMany (fmt : StructFmt) (data : List Nat) (count : Nat) :
    Except String (List DecodedVal) :=
  if data.length ≠ fmt.size * count then .error "byte-length mismatch"
  else
    (List.range count).foldr
      (fun i acc =>
        match decode fmt ((data.drop (i * fmt.size)).take fmt.size), acc with
        | .ok v, .ok vs => .ok (v :: vs)
        | .error e, _ => .error e
        | _, .error e => .error e)
      (.ok [])

/-! ## Malformed-line characterisation used by the abort-on-error claim -/

/-- A line on which the `_load` loop raises (hex_client.py 123-142): a
non-blank line not starting with `:`, an odd or shorter-than-10-character
payload, a non-hex field, a data length mismatching the declared byte count,
or a type-0x04 record whose byte count is not 2.  Blank lines are skipped,
not malformed. -/
def isMalformedLine (rawLine : String) : Bool :=
  match classifyLine rawLine with
  | .bad _ => true
  | _ => false

/-! ## Address sign handling (`_format_address`, hex_client.py 749-774, and
    the unsigned-lookup conversion, hex_client.py 888-896) -/

/-- `_format_address(ecu_address)` (hex_client.py 749-774): `None` passes
through; a negative address renders as `-0x` followed by the absolute value
in uppercase hex, a non-negative one as `0x...`; the decimal component keeps
the original signed value. -/
def formatAddress (ecu_address : Option Int) : Option String × Option Int :=
  match ecu_address with
  | none => (none, none)
  | some address_int =>
    let hex_str :=
      if address_int < 0 then "-0x" ++ natToHexUpper address_int.natAbs
      else "0x" ++ natToHexUpper address_int.toNat
    (some hex_str, some address_int)

/-- The unsigned-lookup conversion used before every HEX fetch
(hex_client.py 888-896, also 1026-1030, 1121-1125, 1233-1238, 1405-1410):
a negative address is reinterpreted as `address & 0xFFFFFFFFFFFFFFFF`
(the non-negative residue modulo 2⁶⁴); a non-negative address is used
unchanged. -/
def lookupAddress (address_int : Int) : Nat :=
  if address_int < 0 then (address_int % (2 ^ 64 : Int)).toNat
  else address_int.toNat

/-! ## Characteristic `number` normalization: the strict HEX-lookup path
    (hex_client.py 288-351) and the tolerant A2L-import path
    (a2l_importer.py 1281-1326) -/

/-- `_normalize_characteristic_number(value, characteristic_type)`
(hex_client.py 288-351), restricted to the `None`/integer inputs the
database-backed callers supply (`Characteristic.number` is an integer
column).  VALUE type: `None` and any value `≥ 0` normalize to `max 1 value`,
a negative value to 1; non-VALUE types: `None` or a value `≤ 0` raise
`ValueError` (modelled as `.error`). -/
def hexNormalizeNumber (value : Option Int) (characteristic_type : String) :
    Except String Int :=
  match value with
  | none =>
    if characteristic_type = "VALUE" then .ok 1
    else .error "number must not be None"
  | some result =>
    if characteristic_type = "VALUE" then
      .ok (if 0 ≤ result then max 1 result else 1)
    else if result ≤ 0 then .error "number must be > 0"
    else .ok result

/-- `A2LDataImporter._normalize_characteristic_number(value, name, record)`
(a2l_importer.py 1281-1326), restricted to `None`/integer inputs: `None`
becomes 0 and an integer is returned unchanged — no sign or positivity check
of any kind (unparseable inputs are also logged and coerced to 0). -/
def importerNormalizeNumber (value : Option Int) : Int :=
  match value with
  | none => 0
  | some i => i

/-- The `number` value the importer's characteristic-preparation loop stores
(a2l_importer.py 612-626): exactly the output of `importerNormalizeNumber`,
and the loop never skips a record on account of that value — `some` is always
returned.  The `characteristic_type` argument mirrors the fact that the
importing path ignores the characteristic type when normalizing. -/
def importerStoredNumber (characteristic_type : String) (value : Option Int) :
    Option Int :=
  let _ := characteristic_type
  some (importerNormalizeNumber value)

/-! ## The HEX value-lookup pipeline (`parse_hex_characteristics`,
    hex_client.py 812-921), modelled over the DB-fetched characteristic
    rows and an already-loaded record list -/

/-- One characteristic row as fetched by `_fetch_characteristics_from_db`
(hex_client.py 354-384): the dict of name, record layout, type, ECU address
and number; `Option` mirrors the `None` checks the loop performs. -/
structure CharRow where
  name : String
  record_layout : Option String
  characteristic_type : String
  ecu_address : Option Int
  number : Option Int
deriving DecidableEq, Repr

/-- `decoded_values[0] if len(decoded_values) == 1 else decoded_values`
(hex_client.py 902): a scalar for a single decoded element, else the list. -/
inductive JsonVal where
  | scalar (v : DecodedVal)
  | arr (vs : List DecodedVal)
deriving DecidableEq, Repr

/-- Python `raw_bytes.hex().upper()`: two uppercase hex digits per byte. -/
def bytesToHexUpper (bs : List Nat) : String :=
  ⟨(bs.map (fun b => [hexDigitChar (b / 16 % 16), hexDigitChar (b % 16)])).flatten⟩

/-- One result entry of `parse_hex_characteristics` (hex_client.py 907-919). -/
structure ResultRow where
  name : String
  record_layout : String
  characteristic_type : String
  address : Option String
  address_decimal : Option Int
  line_no : Int
  byte_count : Nat
  raw_bytes : String
  value : JsonVal
deriving DecidableEq, Repr

/-- The body of the `parse_hex_characteristics` per-characteristic loop
(hex_client.py 840-919): `.ok none` is a logged skip (`continue`), `.ok
(some r)` an appended result, `.error` an uncaught exception aborting the
whole call.  Skips, in source order: empty name; name filtered out; missing
record layout or address; address equal to 0 (before any HEX lookup);
unsupported record layout (`KeyError` caught); invalid `number`
(`ValueError` caught); address range not covered (`KeyError` from
`fetch_bytes` caught — its `ValueError` would propagate, but the requested
size is always positive here). -/
def processCharacteristic (records : List HexRecord)
    (filters : Option (List String)) (c : CharRow) :
    Except String (Option ResultRow) :=
  if c.name = "" then .ok none
  else if (match filters with
           | some fs => !(fs.contains (pyUpper c.name))
           | none => false) then .ok none
  else
    match c.record_layout, c.ecu_address with
    | some layout, some address_int =>
      if address_int = 0 then .ok none
      else
        match resolveStruct layout with
        | .error _ => .ok none
        | .ok fmt =>
          match hexNormalizeNumber c.number c.characteristic_type with
          | .error _ => .ok none
          | .ok element_count =>
            match fetchBytes records (lookupAddress address_int)
                (fmt.size * element_count.toNat) with
            | .error .sizeNotPositive => .error "size must be > 0"
            | .error (.notFound _ _) => .ok none
            | .ok (raw_bytes, line_no) =>
              match decodeMany fmt raw_bytes element_count.toNat with
              | .error e => .error e
              | .ok decoded_values =>
                let (address_hex, address_decimal) :=
                  formatAddress (some address_int)
                .ok (some
                  { name := c.name
                    record_layout := layout
                    characteristic_type := c.characteristic_type
                    address := address_hex
                    address_decimal := address_decimal
                    line_no := line_no
                    byte_count := raw_bytes.length
                    raw_bytes := bytesToHexUpper raw_bytes
                    value :=
                      match decoded_values with
                      | [v] => .scalar v
                      | vs => .arr vs })
    | _, _ => .ok none

/-- `parse_hex_characteristics` main loop (hex_client.py 840-921) over the
fetched characteristic rows: accumulate the per-characteristic results,
skipping `none` entries; an uncaught per-characteristic exception aborts
the whole call. -/
def parseHexCharacteristics (records : List HexRecord)
    (filters : Option (List String)) :
    List CharRow → Except String (List ResultRow)
  | [] => .ok []
  | c :: rest =>
    match processCharacteristic records filters c with
    | .error e => .error e
    | .ok none => parseHexCharacteristics records filters rest
    | .ok (some r) => (parseHexCharacteristics records filters rest).map (r :: ·)

/-! ## CURVE point pairing (`parse_hex_curve`, hex_client.py 1255-1298) -/

/-- The point data returned by `parse_hex_curve`: the pair count, whether the
length-mismatch warning fired, the (possibly truncated) per-axis value lists
and the zipped `(x, y)` points. -/
structure CurveResult (α : Type) where
  point_count : Nat
  warned : Bool
  x_values : List α
  y_values : List α
  data_points : List (α × α)
deriving DecidableEq, Repr

/-- The tail of `parse_hex_curve` after both axes decoded
(hex_client.py 1255-1298): `point_count = min(len(x), len(y))`; an empty
result returns `None`; differing lengths log a warning and truncate both
lists to `point_count`; `data_points = zip(x, y)`. -/
def curveCombine {α : Type} (x_values y_values : List α) :
    Option (CurveResult α) :=
  let point_count := min x_values.length y_values.length
  if point_count = 0 then none
  else
    let warned := x_values.length ≠ y_values.length
    let x' := if warned then x_values.take point_count else x_values
    let y' := if warned then y_values.take point_count else y_values
    some { point_count := point_count
           warned := warned
           x_values := x'
           y_values := y'
           data_points := x'.zip y' }

/-! ## MAP matrix reshaping (`parse_hex_map`, hex_client.py 1436-1438) -/

/-- `matrix = [z_values[y_idx * x_count:(y_idx + 1) * x_count] for y_idx in
range(y_count)]` (hex_client.py 1438): reshape the flat Z data into
`y_count` rows of `x_count` columns, row index = Y position. -/
def mapReshape {α : Type} (z_values : List α) (x_count y_count : Nat) :
    List (List α) :=
  (List.range y_count).map
    (fun y_idx => (z_values.drop (y_idx * x_count)).take x_count)

/-! ## Spreadsheet row-to-period rule
    (`ExcelToCfgConverter`, excel_to_cfg_converter.py 261-421) -/

/-- `_normalize_cell_value` (excel_to_cfg_converter.py 261-269): empty cell
to empty string, else trim and uppercase. -/
def normalizeCell (value : String) : String :=
  if value = "" then "" else pyUpper (pyStrip value)

/-- A period-column cell access `idx is not None and idx < len(row)`
followed by `row[idx]` (excel_to_cfg_converter.py 386, 394, 399, 404, 409). -/
def cellAt (row : List String) (idx : Option Nat) : Option String :=
  match idx with
  | some j => row.get? j
  | none => none

/-- One `if period is None: ... if cell == "X": period = 1` step for a
100ms-family column (excel_to_cfg_converter.py 392-412): keeps an already
resolved period, else resolves 1 when the cell normalizes to "X". -/
def tryPollCol (row : List String) (idx : Option Nat) (cur : Option Nat) :
    Option Nat :=
  match cur with
  | some p => some p
  | none =>
    match cellAt row idx with
    | some v => if normalizeCell v = "X" then some 1 else none
    | none => none

/-- The body of the `parse_excel` data-row loop
(excel_to_cfg_converter.py 361-416): `none` is a skipped row (empty row,
unusable name column, or blank/"NONE"/"NAN" name); otherwise the trimmed
name together with its resolved period — `some 0` when the 10ms column cell
normalizes to "X" (checked first, taking precedence), else `some 1` when any
of the 100ms / Polling_100ms / Polling_500ms / Polling_1s cells normalizes
to "X", else `none` (valid signal without a period marker). -/
def processRow (row : List String) (nameCol : Option Nat)
    (c10 c100 cp100 cp500 cp1s : Option Nat) :
    Option (String × Option Nat) :=
  if row.isEmpty then none
  else
    match nameCol with
    | none => none
    | some j =>
      if row.length ≤ j then none
      else
        let raw := (row.get? j).getD ""
        let signal_name := if raw = "" then "" else pyStrip raw
        if signal_name = "" ∨ pyUpper signal_name = "NONE" ∨
            pyUpper signal_name = "NAN" then none
        else
          let p10 : Option Nat :=
            match cellAt row c10 with
            | some v => if normalizeCell v = "X" then some 0 else none
            | none => none
          let period :=
            tryPollCol row cp1s
              (tryPollCol row cp500
                (tryPollCol row cp100 (tryPollCol row c100 p10)))
          some (signal_name, period)

/-- The accumulation over all data rows (excel_to_cfg_converter.py 357-421):
every non-skipped row increments the total valid-signal count; only rows
with a resolved period are appended to the emitted signal list. -/
def parseExcelRows (rows : List (List String)) (nameCol : Option Nat)
    (c10 c100 cp100 cp500 cp1s : Option Nat) :
    List (String × Nat) × Nat :=
  rows.foldl
    (fun acc row =>
      match processRow row nameCol c10 c100 cp100 cp500 cp1s with
      | none => acc
      | some (n, some p) => (acc.1 ++ [(n, p)], acc.2 + 1)
      | some (_, none) => (acc.1, acc.2 + 1))
    ([], 0)

/-! # Helper lemmas -/

/-- Every data record produced by one load step carries the base address
`(current_upper << 16) + offset`. -/
theorem loadStep_data_base (currentUpper idx : Nat) (line : String)
    (u' : Nat) (r : HexRecord)
    (h : loadStep currentUpper idx line = .ok (u', some r)) :
    r.base_address = currentUpper * 65536 + r.offset_addr := by
  unfold loadStep at h
  cases hc : classifyLine line <;> rw [hc] at h <;> simp_all
  obtain ⟨h1, h2⟩ := h
  subst h1
  subst h2
  rfl

/-- A malformed line makes the load step raise, whatever the running state. -/
theorem loadStep_error_of_malformed (l : String)
    (hm : isMalformedLine l = true) (currentUpper idx : Nat) :
    ∃ e, loadStep currentUpper idx l = .error e := by
  unfold isMalformedLine at hm
  cases hc : classifyLine l <;> rw [hc] at hm <;> simp_all
  exact ⟨_, by unfold loadStep; rw [hc]⟩

/-- A malformed line anywhere in the remaining input makes the whole line
loop raise. -/
theorem loadLines_error_of_malformed :
    ∀ (lines : List String) (idx currentUpper : Nat) (acc : List HexRecord),
    (∃ l ∈ lines, isMalformedLine l = true) →
    ∃ e, loadLines idx currentUpper acc lines = .error e := by
  intro lines
  induction lines with
  | nil =>
    intro idx u acc h
    obtain ⟨l, hl, _⟩ := h
    cases hl
  | cons head tail ih =>
    intro idx u acc h
    obtain ⟨l, hl, hm⟩ := h
    unfold loadLines
    rcases List.mem_cons.mp hl with rfl | htail
    · obtain ⟨e, he⟩ := loadStep_error_of_malformed l hm u idx
      exact ⟨e, by rw [he]⟩
    · cases hs : loadStep u idx head with
      | error e => exact ⟨e, rfl⟩
      | ok p =>
        obtain ⟨u', o⟩ := p
        cases o with
        | none => exact ih (idx + 1) u' acc ⟨l, htail, hm⟩
        | some r => exact ih (idx + 1) u' (acc ++ [r]) ⟨l, htail, hm⟩

/-- For a non-VALUE characteristic type, the strict normalizer rejects a
non-positive count. -/
theorem hexNormalizeNumber_nonpos_error (t : String) (i : Int)
    (ht : t ≠ "VALUE") (hi : i ≤ 0) :
    hexNormalizeNumber (some i) t = .error "number must be > 0" := by
  simp [hexNormalizeNumber, ht, hi]

/-- In the HEX value-lookup loop, a non-VALUE characteristic with a
non-positive `number` is always skipped (never a result entry, never an
abort), whatever the record store or filters. -/
theorem processCharacteristic_invalid_number_skip
    (records : List HexRecord) (filters : Option (List String)) (c : CharRow)
    (i : Int) (ht : c.characteristic_type ≠ "VALUE") (hn : c.number = some i)
    (hi : i ≤ 0) : processCharacteristic records filters c = .ok none := by
  have hnorm : hexNormalizeNumber c.number c.characteristic_type =
      .error "number must be > 0" := by
    rw [hn]; exact hexNormalizeNumber_nonpos_error _ i ht hi
  unfold processCharacteristic
  rw [hnorm]
  (repeat' split) <;> simp_all

/-- A 100ms-family column step only ever keeps `none` or produces period 1
when started from `none` or `some 1`. -/
theorem tryPollCol_none_or_one (row : List String) (i : Option Nat)
    (cur : Option Nat) (h : cur = none ∨ cur = some 1) :
    tryPollCol row i cur = none ∨ tryPollCol row i cur = some 1 := by
  rcases h with rfl | rfl
  · cases hc : cellAt row i with
    | none => exact Or.inl (by simp [tryPollCol, hc])
    | some v =>
      by_cases hx : normalizeCell v = "X"
      · exact Or.inr (by simp [tryPollCol, hc, hx])
      · exact Or.inl (by simp [tryPollCol, hc, hx])
  · exact Or.inr rfl

/-- A 100ms-family column whose cell normalizes to "X" resolves period 1
from any not-yet-0 state. -/
theorem tryPollCol_hit (row : List String) (i : Option Nat) (v : String)
    (hc : cellAt row i = some v) (hx : normalizeCell v = "X")
    (cur : Option Nat) (h : cur = none ∨ cur = some 1) :
    tryPollCol row i cur = some 1 := by
  rcases h with rfl | rfl
  · simp [tryPollCol, hc, hx]
  · rfl

/-- A data row with a usable name column and a valid name reduces to its
name paired with the period resolution chain. -/
theorem processRow_valid (row : List String) (j : Nat)
    (c10 c100 cp100 cp500 cp1s : Option Nat)
    (hj : j < row.length)
    (h1 : pyStrip ((row.get? j).getD "") ≠ "")
    (h2 : pyUpper (pyStrip ((row.get? j).getD "")) ≠ "NONE")
    (h3 : pyUpper (pyStrip ((row.get? j).getD "")) ≠ "NAN") :
    processRow row (some j) c10 c100 cp100 cp500 cp1s =
      some (pyStrip ((row.get? j).getD ""),
        tryPollCol row cp1s (tryPollCol row cp500 (tryPollCol row cp100
          (tryPollCol row c100
            (match cellAt row c10 with
             | some v => if normalizeCell v = "X" then some 0 else none
             | none => none))))) := by
  have hne : row.isEmpty = false := by
    cases row
    · simp at hj
    · rfl
  have hraw : (row.get? j).getD "" ≠ "" := by
    intro hh
    apply h1
    rw [hh]
    rfl
  have hj' : ¬ row.length ≤ j := by omega
  simp only [List.get?_eq_getElem?] at h1 h2 h3 hraw
  simp [processRow, hne, hraw, h1, h2, h3, hj']

/-- The row loop's two counters, over any starting accumulator: the total
counts the non-skipped rows, the emitted list length counts the rows with a
resolved period. -/
theorem parseExcelRows_fold_counts
    (nameCol c10 c100 cp100 cp500 cp1s : Option Nat) :
    ∀ (rows : List (List String)) (acc : List (String × Nat) × Nat),
    (rows.foldl
        (fun acc row =>
          match processRow row nameCol c10 c100 cp100 cp500 cp1s with
          | none => acc
          | some (n, some p) => (acc.1 ++ [(n, p)], acc.2 + 1)
          | some (_, none) => (acc.1, acc.2 + 1)) acc).2 =
      acc.2 + rows.countP
        (fun r => (processRow r nameCol c10 c100 cp100 cp500 cp1s).isSome) ∧
    (rows.foldl
        (fun acc row =>
          match processRow row nameCol c10 c100 cp100 cp500 cp1s with
          | none => acc
          | some (n, some p) => (acc.1 ++ [(n, p)], acc.2 + 1)
          | some (_, none) => (acc.1, acc.2 + 1)) acc).1.length =
      acc.1.length + rows.countP
        (fun r =>
          match processRow r nameCol c10 c100 cp100 cp500 cp1s with
          | some (_, some _) => true
          | _ => false) := by
  intro rows
  induction rows with
  | nil => intro acc; simp
  | cons head tail ih =>
    intro acc
    simp only [List.foldl_cons, List.countP_cons]
    cases hp : processRow head nameCol c10 c100 cp100 cp500 cp1s with
    | none =>
      obtain ⟨ih1, ih2⟩ := ih acc
      constructor
      · simp [hp, ih1]
      · simp [hp, ih2]
    | some pr =>
      obtain ⟨n, po⟩ := pr
      cases po with
      | none =>
        obtain ⟨ih1, ih2⟩ := ih (acc.1, acc.2 + 1)
        constructor
        · simp [hp, ih1]
          omega
        · simp [hp, ih2]
      | some p =>
        obtain ⟨ih1, ih2⟩ := ih (acc.1 ++ [(n, p)], acc.2 + 1)
        constructor
        · simp [hp, ih1]
          omega
        · simp [hp, ih2]
          omega

/-! # Claim theorems -/

/-- C1 counterexample (import path): the A2L importer's number normalizer
returns `0` for a MAP characteristic whose `number` is `0`, and the prepare
loop stores that value instead of skipping the record — a zero count IS
silently stored, contradicting the claim; the HEX-lookup normalizer, by
contrast, rejects the same input. -/
theorem importer_number_zero_stored_counterexample :
    importerStoredNumber "MAP" (some 0) = some 0 ∧
    ¬ (0 : Int) > 0 ∧
    hexNormalizeNumber (some 0) "MAP" = .error "number must be > 0" :=
  ⟨rfl, by decide, rfl⟩

/-- C1 (amended): in the HEX value-lookup path, every accepted `number` is
`≥ 1`; for VALUE types an absent or `0` number normalizes to `1`; for
non-VALUE types an absent or non-positive number raises and the
characteristic is skipped before any HEX fetch.  In the A2L import path,
by contrast, the normalizer returns the integer unchanged (`None` becomes
`0`), with no positivity check and no skipping. -/
theorem characteristic_number_normalization :
    (∀ (v : Option Int) (t : String) (n : Int),
        hexNormalizeNumber v t = .ok n → 1 ≤ n) ∧
    hexNormalizeNumber none "VALUE" = .ok 1 ∧
    hexNormalizeNumber (some 0) "VALUE" = .ok 1 ∧
    (∀ (t : String) (i : Int), t ≠ "VALUE" → i ≤ 0 →
        hexNormalizeNumber (some i) t = .error "number must be > 0") ∧
    (∀ t : String, t ≠ "VALUE" →
        hexNormalizeNumber none t = .error "number must not be None") ∧
    (∀ (records : List HexRecord) (filters : Option (List String))
        (c : CharRow) (i : Int), c.characteristic_type ≠ "VALUE" →
        c.number = some i → i ≤ 0 →
        processCharacteristic records filters c = .ok none) ∧
    (∀ (t : String) (i : Int), importerStoredNumber t (some i) = some i) ∧
    (∀ t : String, importerStoredNumber t none = some 0) := by
  refine ⟨?_, rfl, by decide, hexNormalizeNumber_nonpos_error, ?_,
    processCharacteristic_invalid_number_skip, fun _ _ => rfl, fun _ => rfl⟩
  · intro v t n h
    cases v with
    | none =>
      simp only [hexNormalizeNumber] at h
      split at h
      · simp only [Except.ok.injEq] at h
        omega
      · exact Except.noConfusion h
    | some i =>
      simp only [hexNormalizeNumber] at h
      split at h
      · simp only [Except.ok.injEq] at h
        subst h
        split <;> omega
      · split at h
        · exact Except.noConfusion h
        · simp only [Except.ok.injEq] at h
          omega
  · intro t ht
    simp [hexNormalizeNumber, ht]

/-- C1 witness: concrete instances of the amended theorem — a CURVE with
number 5 is accepted with count ≥ 1, and a MAP row with number 0 is skipped
by the lookup pipeline. -/
theorem characteristic_number_normalization_witness :
    1 ≤ (5 : Int) ∧
    hexNormalizeNumber (some 0) "MAP" = .error "number must be > 0" ∧
    processCharacteristic [] none
      { name := "SYM", record_layout := some "UBYTE",
        characteristic_type := "MAP", ecu_address := some 0x1000,
        number := some 0 } = .ok none := by
  have h := characteristic_number_normalization
  exact ⟨h.1 (some 5) "CURVE" 5 (by decide),
    h.2.2.2.1 "MAP" 0 (by decide) (by decide),
    h.2.2.2.2.2.1 [] none _ 0 (by decide) rfl (by decide)⟩

/-- C2: parsing a HEX file whose only data record sits at base address
0x1000 with bytes 01 02 03 04, `fetch_bytes(0x1000, 4)` returns exactly
those bytes with that record's line number 1, and `fetch_bytes(0x1000, 5)`
fails with the not-found error for the uncovered range. -/
theorem fetch_bytes_contiguous_range :
    (load [":0410000001020304E2", ":00000001FF"]).map
        (fun records => fetchBytes records 0x1000 4) =
      .ok (.ok ([0x01, 0x02, 0x03, 0x04], 1)) ∧
    (load [":0410000001020304E2", ":00000001FF"]).map
        (fun records => fetchBytes records 0x1000 5) =
      .ok (.error (.notFound 0x1000 5)) := by
  exact ⟨by decide, by decide⟩

/-- C3: every data record produced by the loader has absolute base address
`(running upper << 16) + offset`; a well-formed type-0x04 record with data
bytes 00 01 sets the running upper address to 0x0001 regardless of the
previous state; a type-0x04 record with 3 data bytes raises; and loading a
0x04 record `00 01` followed by a data record at offset 0x2000 yields a
record whose absolute base address is 0x12000. -/
theorem extended_linear_address_composition :
    (∀ (currentUpper idx : Nat) (line : String) (u' : Nat) (r : HexRecord),
        loadStep currentUpper idx line = .ok (u', some r) →
        r.base_address = currentUpper * 65536 + r.offset_addr) ∧
    (∀ currentUpper idx : Nat,
        loadStep currentUpper idx ":020000040001F9" = .ok (0x0001, none)) ∧
    (∀ currentUpper idx : Nat,
        loadStep currentUpper idx ":03000004000102F6" =
          .error (.badExtAddr idx)) ∧
    load [":020000040001F9", ":01200000FFE0"] =
      .ok [{ line_no := 2, byte_count := 1, offset_addr := 0x2000,
             record_type := 0, data := [0xFF], checksum := 0xE0,
             base_address := 0x12000 }] :=
  ⟨loadStep_data_base, fun _ _ => rfl, fun _ _ => rfl, by decide⟩

/-- C3 witness: the general base-address law applied to the concrete data
record at offset 0x2000 under running upper address 0x0001. -/
theorem extended_linear_address_composition_witness :
    loadStep 1 2 ":01200000FFE0" =
      .ok (1, some { line_no := 2, byte_count := 1, offset_addr := 0x2000,
                     record_type := 0, data := [0xFF], checksum := 0xE0,
                     base_address := 0x12000 }) ∧
    ({ line_no := 2, byte_count := 1, offset_addr := 0x2000,
       record_type := 0, data := [0xFF], checksum := 0xE0,
       base_address := 0x12000 } : HexRecord).base_address =
      1 * 65536 +
        ({ line_no := 2, byte_count := 1, offset_addr := 0x2000,
           record_type := 0, data := [0xFF], checksum := 0xE0,
           base_address := 0x12000 } : HexRecord).offset_addr :=
  ⟨by decide, extended_linear_address_composition.1 1 2 ":01200000FFE0" 1 _
    (by decide)⟩

/-- C4 counterexample: the claim's decimal value is wrong — the address
`-0xFDC55C48` has decimal value `-4257569864`, not `-4257679432`
(`-4257679432` is `-0xFDC70848`). -/
theorem negative_address_decimal_counterexample :
    (formatAddress (some (-(0xFDC55C48 : Int)))).2 = some (-4257569864) ∧
    (formatAddress (some (-(0xFDC55C48 : Int)))).2 ≠ some (-4257679432) ∧
    (formatAddress (some (-4257679432 : Int))).1 = some "-0xFDC70848" := by
  refine ⟨by decide, by decide, by decide⟩

/-- C4 (amended): every negative signed 64-bit ECU address is looked up at
its unsigned two's-complement reinterpretation (`address + 2⁶⁴`, which is
`address & 0xFFFFFFFFFFFFFFFF`) and formats as `-0x` followed by the
absolute value in uppercase hex with the decimal component keeping the
original sign; in particular `-0xFDC55C48` looks up at
`0xFFFFFFFF023AA3B8`, formats as `-0xFDC55C48`, and keeps decimal value
`-4257569864` (the claim's `-4257679432` corrected). -/
theorem negative_address_unsigned_reinterpretation :
    (∀ a : Int, -(2 ^ 64) ≤ a → a < 0 →
        (lookupAddress a : Int) = a + 2 ^ 64 ∧
        formatAddress (some a) =
          (some ("-0x" ++ natToHexUpper a.natAbs), some a)) ∧
    lookupAddress (-(0xFDC55C48 : Int)) = 0xFFFFFFFF023AA3B8 ∧
    formatAddress (some (-(0xFDC55C48 : Int))) =
      (some "-0xFDC55C48", some (-4257569864)) := by
  refine ⟨?_, by decide, by decide⟩
  intro a h1 h2
  constructor
  · unfold lookupAddress
    rw [if_pos h2]
    omega
  · simp [formatAddress, if_pos h2]

/-- C4 witness: the general negative-address law applied at `-0xFDC55C48`. -/
theorem negative_address_unsigned_reinterpretation_witness :
    (lookupAddress (-(0xFDC55C48 : Int)) : Int) = -(0xFDC55C48 : Int) + 2 ^ 64 ∧
    formatAddress (some (-(0xFDC55C48 : Int))) =
      (some ("-0x" ++ natToHexUpper (-(0xFDC55C48 : Int)).natAbs),
        some (-(0xFDC55C48 : Int))) :=
  negative_address_unsigned_reinterpretation.1 (-(0xFDC55C48 : Int))
    (by decide) (by decide)

/-- C5: record-layout keywords resolve by substring against the upper-cased
layout (longer keywords first), so `Scalar_FLOAT32_IEEE` and `FLOAT32_IEEE`
both resolve to the little-endian float32 format, which decodes the bytes
`00 00 60 40` to 3.5 (= 7/2); other prefixed forms resolve via their
embedded keyword, and an unrecognized keyword raises a not-supported
error. -/
theorem record_layout_keyword_resolution :
    resolveStruct "Scalar_FLOAT32_IEEE" = .ok .f32 ∧
    resolveStruct "FLOAT32_IEEE" = .ok .f32 ∧
    decode .f32 [0x00, 0x00, 0x60, 0x40] = .ok (.rat (7 / 2)) ∧
    resolveStruct "Array_UBYTE" = .ok .u8 ∧
    resolveStruct "Map_UWORD" = .ok .u16 ∧
    resolveStruct "NOT_A_LAYOUT" =
      .error "unsupported record layout: NOT_A_LAYOUT" := by
  refine ⟨by decide, by decide, ?_, by decide, by decide, by decide⟩
  simp [decode, decodeFloat32Bits, bytesToNatLE, StructFmt.size]
  norm_num

/-- C6: whenever the decoded X and Y value lists of a CURVE have different
(non-trivial) lengths, `parse_hex_curve` records the warning, truncates both
lists to the shorter length, and returns exactly `min(len X, len Y)` paired
points; in particular Y of 10 points with X of 8 points yields exactly 8
pairs. -/
theorem curve_point_truncation :
    (∀ (α : Type) (x y : List α), x.length ≠ y.length →
        0 < min x.length y.length →
        ∃ r, curveCombine x y = some r ∧ r.warned = true ∧
          r.point_count = min x.length y.length ∧
          r.x_values.length = min x.length y.length ∧
          r.y_values.length = min x.length y.length ∧
          r.data_points.length = min x.length y.length) ∧
    (curveCombine (List.range 8) (List.range 10)).map
        (fun r => (r.point_count, r.warned, r.data_points.length)) =
      some (8, true, 8) := by
  constructor
  · intro α x y hne hpos
    simp only [curveCombine]
    rw [if_neg (by omega)]
    refine ⟨_, rfl, ?_, rfl, ?_, ?_, ?_⟩
    · simp [hne]
    · simp [if_pos hne, List.length_take]
    · simp [if_pos hne, List.length_take]
    · simp [if_pos hne, List.length_take, List.length_zip]
  · decide

/-- C6 witness: the general truncation law applied to an 8-point X axis and
a 10-point Y axis. -/
theorem curve_point_truncation_witness :
    ∃ r, curveCombine (List.range 8) (List.range 10) = some r ∧
      r.warned = true ∧
      r.point_count = min (List.range 8).length (List.range 10).length ∧
      r.x_values.length = min (List.range 8).length (List.range 10).length ∧
      r.y_values.length = min (List.range 8).length (List.range 10).length ∧
      r.data_points.length =
        min (List.range 8).length (List.range 10).length :=
  curve_point_truncation.1 Nat (List.range 8) (List.range 10)
    (by decide) (by decide)

/-- Row `y_idx` of the reshaped MAP matrix is the `x_count`-element slice of
the flat Z data starting at `y_idx * x_count`. -/
theorem mapReshape_row (α : Type) (z : List α) (x_count y_count y_idx : Nat)
    (hy : y_idx < y_count) :
    (mapReshape z x_count y_count)[y_idx]? =
      some ((z.drop (y_idx * x_count)).take x_count) := by
  simp [mapReshape, List.getElem?_map, List.getElem?_range hy]

/-- C7: the flat Z block of a MAP decode is reshaped into `y_count` rows of
`x_count` columns, row-major with the row index being the Y position: entry
`(y_idx, x_idx)` of the matrix is flat element `y_idx * x_count + x_idx`;
in particular X of 3 points, Y of 2 points and flat values `[1,2,3,4,5,6]`
yield the matrix `[[1,2,3],[4,5,6]]`. -/
theorem map_matrix_reshape :
    (∀ (α : Type) (z : List α) (x_count y_count : Nat),
        (mapReshape z x_count y_count).length = y_count) ∧
    (∀ (α : Type) (z : List α) (x_count y_count y_idx : Nat) (row : List α),
        z.length = x_count * y_count → y_idx < y_count →
        (mapReshape z x_count y_count)[y_idx]? = some row →
        row.length = x_count) ∧
    (∀ (α : Type) (z : List α) (x_count y_count y_idx x_idx : Nat),
        y_idx < y_count → x_idx < x_count →
        ((mapReshape z x_count y_count)[y_idx]?).bind
            (fun row => row[x_idx]?) =
          z[y_idx * x_count + x_idx]?) ∧
    mapReshape [1, 2, 3, 4, 5, 6] 3 2 = [[1, 2, 3], [4, 5, 6]] := by
  refine ⟨?_, ?_, ?_, by decide⟩
  · intro α z x y
    simp [mapReshape]
  · intro α z x y yi row hz hy hrow
    rw [mapReshape_row α z x y yi hy] at hrow
    obtain rfl := Option.some.inj hrow.symm
    simp [List.length_take, List.length_drop, hz]
    have h1 : (yi + 1) * x ≤ y * x := Nat.mul_le_mul_right _ (by omega)
    rw [Nat.succ_mul] at h1
    have hcomm : x * y = y * x := Nat.mul_comm x y
    omega
  · intro α z x y yi xi hy hx
    rw [mapReshape_row α z x y yi hy]
    simp only [Option.some_bind]
    rw [List.getElem?_take_of_lt hx, List.getElem?_drop]

/-- C7 witness: the general indexing law applied at row 1, column 2 of the
concrete 3×2 example, together with its shape facts. -/
theorem map_matrix_reshape_witness :
    (mapReshape [1, 2, 3, 4, 5, 6] 3 2).length = 2 ∧
    ((mapReshape [1, 2, 3, 4, 5, 6] 3 2)[1]?).bind (fun row => row[2]?) =
      [1, 2, 3, 4, 5, 6][1 * 3 + 2]? :=
  ⟨map_matrix_reshape.1 Nat [1, 2, 3, 4, 5, 6] 3 2,
    map_matrix_reshape.2.2.1 Nat [1, 2, 3, 4, 5, 6] 3 2 1 2
      (by decide) (by decide)⟩

/-- C8: an input containing any malformed line — a non-blank line not
starting with `:`, an odd or shorter-than-10-character payload, a non-hex
field, a data length mismatching the declared byte count, or a type-0x04
record whose byte count is not 2 — makes the whole load return a parse
error: no record set is produced at all. -/
theorem load_aborts_on_malformed_line (lines : List String)
    (h : ∃ l ∈ lines, isMalformedLine l = true) :
    ∃ e, load lines = .error e := by
  obtain ⟨e, he⟩ := loadLines_error_of_malformed lines 1 0 [] h
  exact ⟨e, by unfold load; rw [he]; rfl⟩

/-- C8 witness: a file whose second line declares 3 data bytes but carries
4 aborts the load even though its first line is a well-formed EOF record. -/
theorem load_aborts_on_malformed_line_witness :
    ∃ e, load [":00000001FF", ":0310000001020304E2"] = .error e :=
  load_aborts_on_malformed_line [":00000001FF", ":0310000001020304E2"]
    ⟨":0310000001020304E2", by decide, by decide⟩

/-- C9: for a data row with a valid signal name, an "X" (trimmed,
upper-cased) in the 10ms column yields period 0 whatever the other period
columns contain; otherwise an "X" in any of the 100ms / Polling_100ms /
Polling_500ms / Polling_1s columns yields period 1; the emitted-signal
count and the total-valid-signal count of the row loop count exactly the
emitted rows and the valid-name rows respectively; and concretely a row
with "x" in the 10ms column and "X" in Polling_500ms is emitted with
period 0 while a mark-free valid row is counted but not emitted. -/
theorem spreadsheet_period_rule :
    (∀ (row : List String) (j k : Nat) (c100 cp100 cp500 cp1s : Option Nat)
        (v : String),
        j < row.length →
        pyStrip ((row.get? j).getD "") ≠ "" →
        pyUpper (pyStrip ((row.get? j).getD "")) ≠ "NONE" →
        pyUpper (pyStrip ((row.get? j).getD "")) ≠ "NAN" →
        row.get? k = some v → normalizeCell v = "X" →
        processRow row (some j) (some k) c100 cp100 cp500 cp1s =
          some (pyStrip ((row.get? j).getD ""), some 0)) ∧
    (∀ (row : List String) (j : Nat) (c10 c100 cp100 cp500 cp1s : Option Nat)
        (v : String),
        j < row.length →
        pyStrip ((row.get? j).getD "") ≠ "" →
        pyUpper (pyStrip ((row.get? j).getD "")) ≠ "NONE" →
        pyUpper (pyStrip ((row.get? j).getD "")) ≠ "NAN" →
        (∀ w, cellAt row c10 = some w → normalizeCell w ≠ "X") →
        (cellAt row c100 = some v ∨ cellAt row cp100 = some v ∨
          cellAt row cp500 = some v ∨ cellAt row cp1s = some v) →
        normalizeCell v = "X" →
        processRow row (some j) c10 c100 cp100 cp500 cp1s =
          some (pyStrip ((row.get? j).getD ""), some 1)) ∧
    (∀ (rows : List (List String))
        (nameCol c10 c100 cp100 cp500 cp1s : Option Nat),
        (parseExcelRows rows nameCol c10 c100 cp100 cp500 cp1s).2 =
          rows.countP (fun r =>
            (processRow r nameCol c10 c100 cp100 cp500 cp1s).isSome) ∧
        (parseExcelRows rows nameCol c10 c100 cp100 cp500 cp1s).1.length =
          rows.countP (fun r =>
            match processRow r nameCol c10 c100 cp100 cp500 cp1s with
            | some (_, some _) => true
            | _ => false)) ∧
    parseExcelRows [["A", "x", "", "", "X", ""], ["B", "", "", "", "", ""]]
        (some 0) (some 1) (some 2) (some 3) (some 4) (some 5) =
      ([("A", 0)], 2) := by
  refine ⟨?_, ?_, ?_, by decide⟩
  · intro row j k c100 cp100 cp500 cp1s v hj h1 h2 h3 hk hX
    rw [processRow_valid row j (some k) c100 cp100 cp500 cp1s hj h1 h2 h3]
    have hp10 : (match cellAt row (some k) with
        | some v => if normalizeCell v = "X" then some 0 else none
        | none => none) = some 0 := by
      simp only [List.get?_eq_getElem?] at hk
      simp [cellAt, hk, hX]
    rw [hp10]
    rfl
  · intro row j c10 c100 cp100 cp500 cp1s v hj h1 h2 h3 h10 hhit hX
    rw [processRow_valid row j c10 c100 cp100 cp500 cp1s hj h1 h2 h3]
    have hp10 : (match cellAt row c10 with
        | some v => if normalizeCell v = "X" then some 0 else none
        | none => none) = (none : Option Nat) := by
      cases hc : cellAt row c10 with
      | none => rfl
      | some w => simp [h10 w hc]
    rw [hp10]
    have base : tryPollCol row c100 none = none ∨
        tryPollCol row c100 none = some 1 :=
      tryPollCol_none_or_one row c100 none (Or.inl rfl)
    rcases hhit with hc | hc | hc | hc
    · rw [tryPollCol_hit row c100 v hc hX none (Or.inl rfl)]
      rfl
    · rw [tryPollCol_hit row cp100 v hc hX _ base]
      rfl
    · rw [tryPollCol_hit row cp500 v hc hX _
        (tryPollCol_none_or_one row cp100 _ base)]
      rfl
    · rw [tryPollCol_hit row cp1s v hc hX _
        (tryPollCol_none_or_one row cp500 _
          (tryPollCol_none_or_one row cp100 _ base))]
  · intro rows nameCol c10 c100 cp100 cp500 cp1s
    have h := parseExcelRows_fold_counts nameCol c10 c100 cp100 cp500 cp1s
      rows ([], 0)
    exact ⟨by simpa using h.1, by simpa using h.2⟩

/-- C9 witness: the 10ms-precedence law applied to a concrete row carrying
"x" in the 10ms column and "X" in the Polling_500ms column. -/
theorem spreadsheet_period_rule_witness :
    processRow ["Sig", "x", "", "", "X", ""] (some 0) (some 1) (some 2)
        (some 3) (some 4) (some 5) =
      some (pyStrip (((["Sig", "x", "", "", "X", ""] :
          List String).get? 0).getD ""), some 0) :=
  spreadsheet_period_rule.1 ["Sig", "x", "", "", "X", ""] 0 1 (some 2)
    (some 3) (some 4) (some 5) "x" (by decide) (by decide) (by decide)
    (by decide) (by decide) (by decide)

/-- C10: a characteristic whose stored ECU address is 0 is skipped by the
HEX value-lookup loop before any HEX access — whatever the loaded records,
the filters, and its other fields — and contributes no result entry to
`parse_hex_characteristics`. -/
theorem zero_address_characteristic_skipped :
    (∀ (records : List HexRecord) (filters : Option (List String))
        (c : CharRow), c.ecu_address = some 0 →
        processCharacteristic records filters c = .ok none) ∧
    (∀ (records : List HexRecord) (filters : Option (List String))
        (c : CharRow) (rest : List CharRow), c.ecu_address = some 0 →
        parseHexCharacteristics records filters (c :: rest) =
          parseHexCharacteristics records filters rest) := by
  have h1 : ∀ (records : List HexRecord) (filters : Option (List String))
      (c : CharRow), c.ecu_address = some 0 →
      processCharacteristic records filters c = .ok none := by
    intro records filters c h
    unfold processCharacteristic
    rw [h]
    split
    · rfl
    split
    · rfl
    cases hl : c.record_layout
    · rfl
    · simp
  refine ⟨h1, ?_⟩
  intro records filters c rest h
  conv_lhs => unfold parseHexCharacteristics
  rw [h1 records filters c h]

/-- C10 witness: a characteristic with address 0 but otherwise valid fields
is skipped against an empty record store. -/
theorem zero_address_characteristic_skipped_witness :
    processCharacteristic [] none
      { name := "SYM", record_layout := some "FLOAT32_IEEE",
        characteristic_type := "VALUE", ecu_address := some 0,
        number := some 1 } = .ok none :=
  zero_address_characteristic_skipped.1 [] none
    { name := "SYM", record_layout := some "FLOAT32_IEEE",
      characteristic_type := "VALUE", ecu_address := some 0,
      number := some 1 } rfl

end PyHex
